import Mathlib

/-!
Verification of the lump-sum retirement simulation (`main.py` / `app.py`).

The Python source is embedded shallowly: monetary amounts and rates become
exact rationals (`ℚ`), ages and years become integers (`ℤ`), the per-year
loop with its running `capital` accumulator becomes a recursion on the year
index, and Python's `round(x, 2)` (round-half-to-even) becomes `round2`.
-/

/- ----- CONFIGURATION CONSTANTS (main.py lines 28-38) ----- -/

def START_YEAR : ℤ := 2025

def SOCIAL_SECURITY_RATE : ℚ := 0.186

def SOCIAL_SECURITY_THRESHOLD : ℚ := 66150

def CAPITAL_GAINS_TAX_RATE : ℚ := 0.2638

/- ----- TAX FUNCTIONS (main.py lines 41-80) ----- -/

/-- Embedding of `german_income_tax` (main.py lines 41-69): the five-bracket
piecewise formula, with the local variables `y` and `z` inlined. -/
def german_income_tax (income : ℚ) : ℚ :=
  if income ≤ 11784 then 0
  else if income ≤ 17005 then
    (954.8 * ((income - 11784) / 10000) + 1400) * ((income - 11784) / 10000)
  else if income ≤ 66760 then
    (181.19 * ((income - 17005) / 10000) + 2397) * ((income - 17005) / 10000) + 991.21
  else if income ≤ 277825 then
    0.42 * income - 10636.31
  else
    0.45 * income - 18971.06

/-- The second-bracket closed form of `german_income_tax` as a standalone
function of income, used to state boundary and monotonicity facts. -/
def taxBracket2 (income : ℚ) : ℚ :=
  (954.8 * ((income - 11784) / 10000) + 1400) * ((income - 11784) / 10000)

/-- The third-bracket closed form of `german_income_tax`. -/
def taxBracket3 (income : ℚ) : ℚ :=
  (181.19 * ((income - 17005) / 10000) + 2397) * ((income - 17005) / 10000) + 991.21

/-- The fourth-bracket closed form of `german_income_tax`. -/
def taxBracket4 (income : ℚ) : ℚ :=
  0.42 * income - 10636.31

/-- The fifth-bracket closed form of `german_income_tax`. -/
def taxBracket5 (income : ℚ) : ℚ :=
  0.45 * income - 18971.06

/-- Embedding of `lump_sum_tax_fünftel` (main.py lines 71-80); `ü` is not a
valid Lean identifier character, hence the transliterated name. -/
def lump_sum_tax_fuenftel (lump_sum base_income : ℚ) : ℚ :=
  let base_tax := german_income_tax base_income
  let tax_with_fraction := german_income_tax (base_income + lump_sum / 5)
  5 * (tax_with_fraction - base_tax)

/-- The marginal social-security formula
`(min(base+increment, threshold) - min(base, threshold)) * rate`, inlined
twice in main.py (lines 110-111 for the pension and 120-121 for the lump
share); named as in the spec. -/
def social_security_contribution (base increment threshold rate : ℚ) : ℚ :=
  (min (base + increment) threshold - min base threshold) * rate

/- ----- ROUNDING (Python round(x, 2), round-half-to-even) ----- -/

/-- Python's banker's rounding to the nearest integer: ties go to the even
neighbour. -/
def roundHalfEven (x : ℚ) : ℤ :=
  if x - (⌊x⌋ : ℚ) < 1/2 then ⌊x⌋
  else if 1/2 < x - (⌊x⌋ : ℚ) then ⌊x⌋ + 1
  else if Even ⌊x⌋ then ⌊x⌋ else ⌊x⌋ + 1

/-- Python's `round(x, 2)`: round-half-to-even at two decimal places. -/
def round2 (x : ℚ) : ℚ := (roundHalfEven (100 * x) : ℚ) / 100

/- ----- SIMULATION (main.py lines 83-194) ----- -/

/-- The seven scalar parameters of `simulate_retirement_investable`
(main.py lines 83-91). -/
structure SimInput where
  lump_sum : ℚ
  pension : ℚ
  current_age : ℤ
  age_of_death : ℤ
  other_income_social : ℚ
  other_income_tax : ℚ
  market_return : ℚ
  deriving Repr, DecidableEq

/-- `base_regular` (main.py line 103). -/
def base_regular (inp : SimInput) : ℚ := inp.other_income_tax + inp.other_income_social

/-- `base_ss` (main.py line 104). -/
def base_ss (inp : SimInput) : ℚ := inp.other_income_social

/-- `pension_tax` (main.py line 108). -/
def pension_tax (inp : SimInput) : ℚ :=
  german_income_tax (base_regular inp + inp.pension) - german_income_tax (base_regular inp)

/-- `pension_ss` (main.py lines 110-111). -/
def pension_ss (inp : SimInput) : ℚ :=
  social_security_contribution (base_ss inp) inp.pension
    SOCIAL_SECURITY_THRESHOLD SOCIAL_SECURITY_RATE

/-- `net_pension` (main.py line 112). -/
def net_pension (inp : SimInput) : ℚ := inp.pension - (pension_tax inp + pension_ss inp)

/-- `lump_tax` (main.py line 116). -/
def lump_tax (inp : SimInput) : ℚ :=
  lump_sum_tax_fuenftel inp.lump_sum (base_regular inp + inp.pension)

/-- `net_lump` (main.py line 117). -/
def net_lump (inp : SimInput) : ℚ := inp.lump_sum - lump_tax inp

/-- `lump_share` (main.py line 119). -/
def lump_share (inp : SimInput) : ℚ := inp.lump_sum / 10

/-- `lump_ss_year` (main.py lines 120-121). -/
def lump_ss_year (inp : SimInput) : ℚ :=
  social_security_contribution (base_ss inp + inp.pension) (lump_share inp)
    SOCIAL_SECURITY_THRESHOLD SOCIAL_SECURITY_RATE

/-- The `net_flow` of the three regimes selected on `year_index`
(main.py lines 130-159). -/
def yearNetFlow (inp : SimInput) (year_index : ℕ) : ℚ :=
  if year_index = 0 then net_lump inp + net_pension inp - lump_ss_year inp
  else if year_index < 10 then net_pension inp - lump_ss_year inp
  else net_pension inp

/-- The running `capital` accumulator: `capitalAfter inp i` is the value of
`capital` before year `i` of the loop (started at `0.0`, main.py line 100,
updated at lines 161-172 and 192). -/
def capitalAfter (inp : SimInput) : ℕ → ℚ
  | 0 => 0
  | i + 1 =>
    let capital_start := capitalAfter inp i
    let net_flow := yearNetFlow inp i
    let new_basis := capital_start + net_flow
    let gross_investment_return := new_basis * inp.market_return
    let investment_tax := gross_investment_return * CAPITAL_GAINS_TAX_RATE
    let net_investment_return := gross_investment_return - investment_tax
    new_basis + net_investment_return

/-- One emitted row (main.py lines 174-189): every monetary field is rounded
to 2 decimal places at emission time. -/
structure YearRecord where
  calendar_year : ℤ
  age : ℤ
  capital_start : ℚ
  lump_sum_gross : ℚ
  lump_sum_tax : ℚ
  lump_sum_ss : ℚ
  pension_gross : ℚ
  pension_tax : ℚ
  pension_ss : ℚ
  net_flow : ℚ
  gross_investment_return : ℚ
  investment_tax : ℚ
  net_investment_return : ℚ
  capital_end : ℚ
  deriving Repr, DecidableEq

/-- The record appended for `year_index` (main.py lines 124-189): regime
selection on the year index, investment-return arithmetic, and rounding at
emission. -/
def mkRecord (inp : SimInput) (year_index : ℕ) : YearRecord :=
  let cal_year := START_YEAR + (year_index : ℤ)
  let age := inp.current_age + (year_index : ℤ)
  let capital_start := capitalAfter inp year_index
  let lump_sum_gross : ℚ := if year_index = 0 then inp.lump_sum else 0
  let lump_sum_tax : ℚ := if year_index = 0 then lump_tax inp else 0
  let lump_sum_ss : ℚ := if year_index < 10 then lump_ss_year inp else 0
  let net_flow := yearNetFlow inp year_index
  let new_basis := capital_start + net_flow
  let gross_investment_return := new_basis * inp.market_return
  let investment_tax := gross_investment_return * CAPITAL_GAINS_TAX_RATE
  let net_investment_return := gross_investment_return - investment_tax
  { calendar_year := cal_year
    age := age
    capital_start := round2 capital_start
    lump_sum_gross := round2 lump_sum_gross
    lump_sum_tax := round2 lump_sum_tax
    lump_sum_ss := round2 lump_sum_ss
    pension_gross := round2 inp.pension
    pension_tax := round2 (pension_tax inp)
    pension_ss := round2 (pension_ss inp)
    net_flow := round2 net_flow
    gross_investment_return := round2 gross_investment_return
    investment_tax := round2 investment_tax
    net_investment_return := round2 net_investment_return
    capital_end := round2 (new_basis + net_investment_return) }

/-- Embedding of `simulate_retirement_investable` (main.py lines 83-194):
`num_years = age_of_death - current_age` iterations (Python's
`range` of a non-positive number is empty, hence `Int.toNat`), one record
per year. -/
def simulate_retirement_investable (inp : SimInput) : List YearRecord :=
  let num_years := (inp.age_of_death - inp.current_age).toNat
  (List.range num_years).map (mkRecord inp)

/-- Embedding of the "Run Simulation" button handler (app.py lines 103-118):
the age check happens in the UI layer, which reports an error message and
never calls the core when it fails. -/
def run_simulation (inp : SimInput) : Except String (List YearRecord) :=
  if inp.age_of_death ≤ inp.current_age then
    Except.error "Age of Death must be greater than Current Age."
  else
    Except.ok (simulate_retirement_investable inp)

/-- The five-bracket closed form exactly as the spec's §4.1 table writes it,
with both bounds of each bracket condition spelled out; written from the
spec's words only, to be compared with `german_income_tax`. -/
def spec_progressive_income_tax (income : ℚ) : ℚ :=
  if income ≤ 11784 then 0
  else if 11784 < income ∧ income ≤ 17005 then
    (954.8 * ((income - 11784) / 10000) + 1400) * ((income - 11784) / 10000)
  else if 17005 < income ∧ income ≤ 66760 then
    (181.19 * ((income - 17005) / 10000) + 2397) * ((income - 17005) / 10000) + 991.21
  else if 66760 < income ∧ income ≤ 277825 then
    0.42 * income - 10636.31
  else
    0.45 * income - 18971.06

/- ===================== THEOREMS ===================== -/

/-- Claim C1: `german_income_tax` returns exactly the five-bracket closed
form stated by the spec, for every income. -/
theorem c1_tax_formula_matches_spec :
    ∀ income : ℚ, german_income_tax income = spec_progressive_income_tax income := by
  intro x
  unfold german_income_tax spec_progressive_income_tax
  rcases le_or_lt x 11784 with h1 | h1
  · rw [if_pos h1, if_pos h1]
  · rw [if_neg (not_le.mpr h1), if_neg (not_le.mpr h1)]
    rcases le_or_lt x 17005 with h2 | h2
    · rw [if_pos h2, if_pos ⟨h1, h2⟩]
    · rw [if_neg (not_le.mpr h2),
        if_neg (show ¬(11784 < x ∧ x ≤ 17005) from fun hc => absurd hc.2 (not_le.mpr h2))]
      rcases le_or_lt x 66760 with h3 | h3
      · rw [if_pos h3, if_pos ⟨h2, h3⟩]
      · rw [if_neg (not_le.mpr h3),
          if_neg (show ¬(17005 < x ∧ x ≤ 66760) from fun hc => absurd hc.2 (not_le.mpr h3))]
        rcases le_or_lt x 277825 with h4 | h4
        · rw [if_pos h4, if_pos ⟨h3, h4⟩]
        · rw [if_neg (not_le.mpr h4),
            if_neg (show ¬(66760 < x ∧ x ≤ 277825) from fun hc => absurd hc.2 (not_le.mpr h4))]

/-- Claim C5: `lump_sum_tax_fuenftel` implements one-fifth averaging:
`5 * (tax(base + ls/5) - tax(base))`, and in particular it is `0` when the
lump sum is `0`. -/
theorem c5_fuenftel_formula :
    ∀ lump_sum base_income : ℚ,
      lump_sum_tax_fuenftel lump_sum base_income
        = 5 * (german_income_tax (base_income + lump_sum / 5)
                - german_income_tax base_income)
      ∧ lump_sum_tax_fuenftel 0 base_income = 0 := by
  intro ls b
  refine ⟨rfl, ?_⟩
  simp [lump_sum_tax_fuenftel]

/-- Claim C9: with `age_of_death ≤ current_age` the core raises no error and
returns the empty sequence (the loop body runs zero times). -/
theorem c9_empty_when_nonpositive_years :
    ∀ inp : SimInput, inp.age_of_death ≤ inp.current_age →
      simulate_retirement_investable inp = [] := by
  intro inp h
  unfold simulate_retirement_investable
  have : (inp.age_of_death - inp.current_age).toNat = 0 :=
    Int.toNat_of_nonpos (by linarith)
  simp [this]

/-- Witness for C9 at a concrete input with `age_of_death < current_age`. -/
theorem c9_empty_when_nonpositive_years_witness :
    (⟨0, 0, 70, 65, 0, 0, 0⟩ : SimInput).age_of_death
        ≤ (⟨0, 0, 70, 65, 0, 0, 0⟩ : SimInput).current_age
      ∧ simulate_retirement_investable ⟨0, 0, 70, 65, 0, 0, 0⟩ = [] :=
  ⟨by decide, c9_empty_when_nonpositive_years ⟨0, 0, 70, 65, 0, 0, 0⟩ (by decide)⟩

/-- Claim C4 counterexample: the core performs no validation at all. With
`age_of_death ≤ current_age` it returns the empty list instead of raising
`InvalidInput`, and with a negative `lump_sum` it happily computes the full
sequence of records instead of failing. -/
theorem c4_counterexample :
    (⟨5, 5, 80, 75, 0, 0, 0⟩ : SimInput).age_of_death
        ≤ (⟨5, 5, 80, 75, 0, 0, 0⟩ : SimInput).current_age
    ∧ simulate_retirement_investable ⟨5, 5, 80, 75, 0, 0, 0⟩ = []
    ∧ (simulate_retirement_investable ⟨-100, 0, 65, 67, 0, 0, 0⟩).length = 2 :=
  ⟨by decide, by decide, by decide⟩

/-- Claim C4 as amended: the core never raises; it always returns
`age_of_death - current_age` (clamped at 0) records, in particular the empty
sequence when `age_of_death ≤ current_age`, even for negative monetary
inputs.  The only surfaced validation is the UI handler's age check, which
shows a blocking error message and skips the core call. -/
theorem c4_validation_behavior :
    ∀ inp : SimInput,
      (simulate_retirement_investable inp).length
          = (inp.age_of_death - inp.current_age).toNat
      ∧ (inp.age_of_death ≤ inp.current_age →
          simulate_retirement_investable inp = []
          ∧ run_simulation inp
              = Except.error "Age of Death must be greater than Current Age.")
      ∧ (inp.current_age < inp.age_of_death →
          run_simulation inp = Except.ok (simulate_retirement_investable inp)) := by
  intro inp
  refine ⟨?_, fun h => ⟨?_, ?_⟩, fun h => ?_⟩
  · simp [simulate_retirement_investable]
  · unfold simulate_retirement_investable
    have h0 : (inp.age_of_death - inp.current_age).toNat = 0 :=
      Int.toNat_of_nonpos (by linarith)
    simp [h0]
  · unfold run_simulation
    rw [if_pos h]
  · unfold run_simulation
    rw [if_neg (not_le.mpr h)]

/-- Witness for the amended C4 at a concrete invalid input. -/
theorem c4_validation_behavior_witness :
    (⟨5, 5, 80, 75, 0, 0, 0⟩ : SimInput).age_of_death
        ≤ (⟨5, 5, 80, 75, 0, 0, 0⟩ : SimInput).current_age
    ∧ run_simulation ⟨5, 5, 80, 75, 0, 0, 0⟩
        = Except.error "Age of Death must be greater than Current Age." :=
  ⟨by decide, ((c4_validation_behavior ⟨5, 5, 80, 75, 0, 0, 0⟩).2.1 (by decide)).2⟩

/-- Claim C2: the emitted sequence is a scan over the single running capital
accumulator started at `0.0`: record `i`'s `capital_end` equals record
`i+1`'s `capital_start` (both are the 2-decimal rounding of the same
unrounded accumulator value). -/
theorem c2_fold_invariant :
    ∀ (inp : SimInput) (i : ℕ)
      (h : i + 1 < (simulate_retirement_investable inp).length),
      capitalAfter inp 0 = 0
      ∧ ((simulate_retirement_investable inp).get ⟨i, by omega⟩).capital_end
          = ((simulate_retirement_investable inp).get ⟨i + 1, h⟩).capital_start := by
  intro inp i h
  refine ⟨rfl, ?_⟩
  simp only [simulate_retirement_investable, List.get_eq_getElem, List.getElem_map,
    List.getElem_range]
  rfl

/-- Witness for C2 at a concrete input and index. -/
theorem c2_fold_invariant_witness :
    0 + 1 < (simulate_retirement_investable ⟨0, 0, 65, 67, 0, 0, 0⟩).length
    ∧ ((simulate_retirement_investable ⟨0, 0, 65, 67, 0, 0, 0⟩).get
          ⟨0, by decide⟩).capital_end
        = ((simulate_retirement_investable ⟨0, 0, 65, 67, 0, 0, 0⟩).get
            ⟨0 + 1, by decide⟩).capital_start :=
  ⟨by decide, (c2_fold_invariant ⟨0, 0, 65, 67, 0, 0, 0⟩ 0 (by decide)).2⟩

/-- Claim C6: for a valid input the result has exactly
`age_of_death - current_age` records, and record `i` carries
`calendar_year = 2025 + i` and `age = current_age + i`. -/
theorem c6_record_indexing :
    ∀ inp : SimInput, inp.current_age < inp.age_of_death →
      ((simulate_retirement_investable inp).length : ℤ)
          = inp.age_of_death - inp.current_age
      ∧ ∀ (i : ℕ) (h : i < (simulate_retirement_investable inp).length),
          ((simulate_retirement_investable inp).get ⟨i, h⟩).calendar_year
              = 2025 + (i : ℤ)
          ∧ ((simulate_retirement_investable inp).get ⟨i, h⟩).age
              = inp.current_age + (i : ℤ) := by
  intro inp hlt
  constructor
  · simp only [simulate_retirement_investable, List.length_map, List.length_range]
    exact Int.toNat_of_nonneg (by omega)
  · intro i h
    simp only [simulate_retirement_investable, List.get_eq_getElem, List.getElem_map,
      List.getElem_range]
    exact ⟨rfl, rfl⟩

/-- Witness for C6 at a concrete input. -/
theorem c6_record_indexing_witness :
    (⟨0, 0, 65, 67, 0, 0, 0⟩ : SimInput).current_age
        < (⟨0, 0, 65, 67, 0, 0, 0⟩ : SimInput).age_of_death
    ∧ ((simulate_retirement_investable ⟨0, 0, 65, 67, 0, 0, 0⟩).length : ℤ)
        = (⟨0, 0, 65, 67, 0, 0, 0⟩ : SimInput).age_of_death
            - (⟨0, 0, 65, 67, 0, 0, 0⟩ : SimInput).current_age :=
  ⟨by decide, (c6_record_indexing ⟨0, 0, 65, 67, 0, 0, 0⟩ (by decide)).1⟩

/-- Claim C3 counterexample: with `lump_sum = 10000 > 0` but
`other_income_social = 70000` above the social-security threshold `66150`,
the `lump_sum_ss` field of year 0 is exactly `0`, not a nonzero constant. -/
theorem c3_counterexample :
    0 < (⟨10000, 0, 65, 66, 70000, 0, 0⟩ : SimInput).lump_sum
    ∧ ((simulate_retirement_investable ⟨10000, 0, 65, 66, 70000, 0, 0⟩).get
          ⟨0, by decide⟩).lump_sum_ss = 0 := by
  constructor
  · norm_num
  · simp only [simulate_retirement_investable, List.get_eq_getElem, List.getElem_map,
      List.getElem_range, mkRecord]
    norm_num [lump_ss_year, social_security_contribution, lump_share, base_ss,
      SOCIAL_SECURITY_THRESHOLD, SOCIAL_SECURITY_RATE, min_def, round2, roundHalfEven]

/-- Claim C3 as amended: the `lump_sum_ss` field is one and the same constant
(the rounding of `lump_ss_year`) for every `year_index` in `[0,9]` and
exactly `0` for `year_index ≥ 10`; the constant may be `0` even when
`lump_sum > 0`, e.g. when `base_ss + pension` already exceeds the threshold. -/
theorem c3_lump_ss_window :
    ∀ (inp : SimInput) (i : ℕ) (h : i < (simulate_retirement_investable inp).length),
      ((simulate_retirement_investable inp).get ⟨i, h⟩).lump_sum_ss
        = if i < 10 then round2 (lump_ss_year inp) else 0 := by
  intro inp i h
  simp only [simulate_retirement_investable, List.get_eq_getElem, List.getElem_map,
    List.getElem_range]
  by_cases hi : i < 10
  · rw [if_pos hi]
    show round2 (if i < 10 then lump_ss_year inp else 0) = round2 (lump_ss_year inp)
    rw [if_pos hi]
  · rw [if_neg hi]
    show round2 (if i < 10 then lump_ss_year inp else 0) = 0
    rw [if_neg hi]
    norm_num [round2, roundHalfEven]

/-- Witness for the amended C3 at a concrete input and index. -/
theorem c3_lump_ss_window_witness :
    0 < (simulate_retirement_investable ⟨10000, 0, 65, 77, 0, 0, 0⟩).length
    ∧ ((simulate_retirement_investable ⟨10000, 0, 65, 77, 0, 0, 0⟩).get
          ⟨0, by decide⟩).lump_sum_ss
        = if 0 < 10 then round2 (lump_ss_year ⟨10000, 0, 65, 77, 0, 0, 0⟩) else 0 :=
  ⟨by decide, c3_lump_ss_window ⟨10000, 0, 65, 77, 0, 0, 0⟩ 0 (by decide)⟩

/-- The if-chain of `german_income_tax` written with the named bracket
functions (definitional). -/
theorem german_income_tax_eq (x : ℚ) :
    german_income_tax x =
      if x ≤ 11784 then 0
      else if x ≤ 17005 then taxBracket2 x
      else if x ≤ 66760 then taxBracket3 x
      else if x ≤ 277825 then taxBracket4 x
      else taxBracket5 x := rfl

/-- `(k*s + c)*s` is monotone in `s ≥ 0` when `k, c ≥ 0`. -/
theorem quad_le_quad {k c s t : ℚ} (hk : 0 ≤ k) (hc : 0 ≤ c) (hs : 0 ≤ s)
    (hst : s ≤ t) : (k * s + c) * s ≤ (k * t + c) * t := by
  have ht : 0 ≤ t := hs.trans hst
  nlinarith [mul_nonneg (sub_nonneg.mpr hst)
    (add_nonneg (mul_nonneg hk (add_nonneg hs ht)) hc)]

theorem taxBracket2_nonneg {x : ℚ} (hx : 11784 ≤ x) : 0 ≤ taxBracket2 x := by
  unfold taxBracket2
  have h : (0 : ℚ) ≤ (x - 11784) / 10000 := by linarith
  nlinarith [h]

theorem taxBracket2_mono {a b : ℚ} (ha : 11784 ≤ a) (hab : a ≤ b) :
    taxBracket2 a ≤ taxBracket2 b := by
  unfold taxBracket2
  exact quad_le_quad (by norm_num) (by norm_num) (by linarith) (by linarith)

theorem taxBracket3_ge {x : ℚ} (hx : 17005 ≤ x) : 991.21 ≤ taxBracket3 x := by
  unfold taxBracket3
  have h : (0 : ℚ) ≤ (x - 17005) / 10000 := by linarith
  nlinarith [h]

theorem taxBracket3_mono {a b : ℚ} (ha : 17005 ≤ a) (hab : a ≤ b) :
    taxBracket3 a ≤ taxBracket3 b := by
  unfold taxBracket3
  have := quad_le_quad (k := 181.19) (c := 2397)
    (s := (a - 17005) / 10000) (t := (b - 17005) / 10000)
    (by norm_num) (by norm_num) (by linarith) (by linarith)
  linarith

theorem taxBracket3_nonneg {x : ℚ} (hx : 17005 ≤ x) : 0 ≤ taxBracket3 x :=
  le_trans (by norm_num) (taxBracket3_ge hx)

theorem taxBracket2_le_taxBracket3 {a b : ℚ} (ha1 : 11784 ≤ a) (ha2 : a ≤ 17005)
    (hb : 17005 ≤ b) : taxBracket2 a ≤ taxBracket3 b :=
  le_trans (le_trans (taxBracket2_mono ha1 ha2) (by unfold taxBracket2; norm_num))
    (taxBracket3_ge hb)

/-- Monotonicity of the tax function below the 66760 boundary. -/
theorem german_income_tax_mono_low {a b : ℚ} (hab : a ≤ b) (hb : b ≤ 66760) :
    german_income_tax a ≤ german_income_tax b := by
  rw [german_income_tax_eq, german_income_tax_eq]
  split_ifs <;>
    first
      | linarith
      | (apply taxBracket2_nonneg <;> linarith)
      | (apply taxBracket3_nonneg <;> linarith)
      | (apply taxBracket2_mono <;> linarith)
      | (apply taxBracket2_le_taxBracket3 <;> linarith)
      | (apply taxBracket3_mono <;> linarith)

/-- Monotonicity of the tax function above the 66760 boundary. -/
theorem german_income_tax_mono_high {a b : ℚ} (ha : 66760 < a) (hab : a ≤ b) :
    german_income_tax a ≤ german_income_tax b := by
  unfold german_income_tax
  split_ifs <;> linarith

/-- Above the boundary the tax dominates the fourth-bracket line. -/
theorem german_income_tax_ge_linear {b : ℚ} (hb : 66760 < b) :
    0.42 * b - 10636.31 ≤ german_income_tax b := by
  unfold german_income_tax
  split_ifs <;> linarith

/-- The exact value of the tax at the 66760 boundary: the fourth-bracket line
plus the downward jump of `24283719 / 400000000`. -/
theorem german_income_tax_at_66760 :
    german_income_tax 66760 = 0.42 * 66760 - 10636.31 + 24283719 / 400000000 := by
  unfold german_income_tax
  norm_num

/-- Claim C7 counterexample: at the 66760 bracket boundary the function value
exceeds the fourth-bracket line by exactly `24283719/400000000 ≈ 0.0607`, and
stepping `0.001` above the boundary drops the tax by more than `0.05` — far
beyond floating tolerance, so the function is not continuous there. -/
theorem c7_counterexample :
    german_income_tax 66760 - taxBracket4 66760 = 24283719 / 400000000
    ∧ german_income_tax (66760 + 1/1000) < german_income_tax 66760 - 1/20 := by
  constructor <;> norm_num [german_income_tax, taxBracket4]

/-- Claim C7 as amended: the adjacent bracket formulas agree exactly at 11784
and 277825, but at 17005 they differ by `646533/250000000 ≈ 0.0026` and at
66760 by `24283719/400000000 ≈ 0.0607`: continuity holds only to within about
seven hundredths of a currency unit, not within floating tolerance. -/
theorem c7_boundary_gaps :
    german_income_tax 11784 = 0
    ∧ taxBracket2 11784 = 0
    ∧ german_income_tax 17005 = taxBracket2 17005
    ∧ taxBracket3 17005 - taxBracket2 17005 = 646533 / 250000000
    ∧ german_income_tax 66760 = taxBracket3 66760
    ∧ taxBracket3 66760 - taxBracket4 66760 = 24283719 / 400000000
    ∧ german_income_tax 277825 = taxBracket4 277825
    ∧ taxBracket4 277825 = taxBracket5 277825 := by
  refine ⟨?_, ?_, ?_, ?_, ?_, ?_, ?_, ?_⟩ <;>
    norm_num [german_income_tax, taxBracket2, taxBracket3, taxBracket4, taxBracket5]

/-- Claim C8 counterexample: `german_income_tax` is not non-decreasing — the
value at 66760 exceeds the value just above it. -/
theorem c8_counterexample :
    (66760 : ℚ) ≤ 66760 + 1/100
    ∧ german_income_tax 66760 + 1/100 < german_income_tax 66760 + 6/100
    ∧ german_income_tax (66760 + 1/100) < german_income_tax 66760 := by
  refine ⟨by norm_num, by norm_num, ?_⟩
  norm_num [german_income_tax]

/-- Claim C8 as amended: `german_income_tax` is non-decreasing on each side of
the 66760 boundary and, globally, never drops by more than the single
downward jump `24283719/400000000 ≈ 0.0607` located there;
`social_security_contribution` is non-decreasing in its increment (for a
non-negative rate) and vanishes whenever the base already meets the threshold
and the increment is non-negative. -/
theorem c8_monotonicity :
    (∀ a b : ℚ, a ≤ b → b ≤ 66760 → german_income_tax a ≤ german_income_tax b)
    ∧ (∀ a b : ℚ, 66760 < a → a ≤ b → german_income_tax a ≤ german_income_tax b)
    ∧ (∀ a b : ℚ, a ≤ b →
        german_income_tax a ≤ german_income_tax b + 24283719 / 400000000)
    ∧ (∀ base increment1 increment2 threshold rate : ℚ, 0 ≤ rate →
        increment1 ≤ increment2 →
        social_security_contribution base increment1 threshold rate
          ≤ social_security_contribution base increment2 threshold rate)
    ∧ (∀ base increment threshold rate : ℚ, threshold ≤ base → 0 ≤ increment →
        social_security_contribution base increment threshold rate = 0) := by
  refine ⟨fun a b hab hb => german_income_tax_mono_low hab hb,
    fun a b ha hab => german_income_tax_mono_high ha hab, ?_, ?_, ?_⟩
  · intro a b hab
    rcases le_or_lt b 66760 with hb | hb
    · linarith [german_income_tax_mono_low hab hb]
    · rcases le_or_lt a 66760 with ha | ha
      · have h1 : german_income_tax a ≤ german_income_tax 66760 :=
          german_income_tax_mono_low ha le_rfl
        have h2 := german_income_tax_at_66760
        have h3 := german_income_tax_ge_linear hb
        linarith
      · linarith [german_income_tax_mono_high ha hab]
  · intro base i1 i2 thr rate hr h12
    unfold social_security_contribution
    have hmin : min (base + i1) thr ≤ min (base + i2) thr :=
      min_le_min (by linarith) le_rfl
    exact mul_le_mul_of_nonneg_right (by linarith) hr
  · intro base i thr rate hb hi
    unfold social_security_contribution
    rw [min_eq_right (by linarith), min_eq_right hb]
    ring

/-- Witness for the amended C8 at concrete inputs. -/
theorem c8_monotonicity_witness :
    ((20000 : ℚ) ≤ 30000 ∧ (30000 : ℚ) ≤ 66760
      ∧ german_income_tax 20000 ≤ german_income_tax 30000)
    ∧ ((0 : ℚ) ≤ 0.186 ∧ (5 : ℚ) ≤ 7
      ∧ social_security_contribution 100 5 66150 0.186
          ≤ social_security_contribution 100 7 66150 0.186)
    ∧ ((66150 : ℚ) ≤ 70000 ∧ (0 : ℚ) ≤ 5
      ∧ social_security_contribution 70000 5 66150 0.186 = 0) :=
  ⟨⟨by norm_num, by norm_num,
      c8_monotonicity.1 20000 30000 (by norm_num) (by norm_num)⟩,
    ⟨by norm_num, by norm_num,
      c8_monotonicity.2.2.2.1 100 5 7 66150 0.186 (by norm_num) (by norm_num)⟩,
    ⟨by norm_num, by norm_num,
      c8_monotonicity.2.2.2.2 70000 5 66150 0.186 (by norm_num) (by norm_num)⟩⟩

theorem roundHalfEven_ge_floor (x : ℚ) : ⌊x⌋ ≤ roundHalfEven x := by
  unfold roundHalfEven
  split_ifs <;> omega

theorem roundHalfEven_le_floor_add_one (x : ℚ) : roundHalfEven x ≤ ⌊x⌋ + 1 := by
  unfold roundHalfEven
  split_ifs <;> omega

theorem roundHalfEven_mono {x y : ℚ} (h : x ≤ y) : roundHalfEven x ≤ roundHalfEven y := by
  have hf : ⌊x⌋ ≤ ⌊y⌋ := Int.floor_mono h
  rcases lt_or_eq_of_le hf with hlt | heq
  · calc roundHalfEven x ≤ ⌊x⌋ + 1 := roundHalfEven_le_floor_add_one x
      _ ≤ ⌊y⌋ := by omega
      _ ≤ roundHalfEven y := roundHalfEven_ge_floor y
  · unfold roundHalfEven
    rw [← heq]
    split_ifs <;> first | omega | (exfalso; linarith)

/-- Python's 2-decimal rounding is monotone. -/
theorem round2_mono {x y : ℚ} (h : x ≤ y) : round2 x ≤ round2 y := by
  unfold round2
  have h1 : roundHalfEven (100 * x) ≤ roundHalfEven (100 * y) :=
    roundHalfEven_mono (by linarith)
  have h2 : ((roundHalfEven (100 * x) : ℤ) : ℚ) ≤ ((roundHalfEven (100 * y) : ℤ) : ℚ) := by
    exact_mod_cast h1
  linarith

/-- Claim C10 counterexample: all monetary inputs and the market return are
non-negative, yet the year-0 `net_flow` is strictly negative and the running
capital strictly decreases.  The input sits just above the 17005 bracket
boundary, where the tax formula jumps upward, so the marginal tax on a tiny
pension (3/1000) exceeds the pension itself. -/
theorem c10_counterexample :
    0 ≤ (⟨0, 3/1000, 65, 66, 0, 17005, 0⟩ : SimInput).lump_sum
    ∧ 0 ≤ (⟨0, 3/1000, 65, 66, 0, 17005, 0⟩ : SimInput).pension
    ∧ 0 ≤ (⟨0, 3/1000, 65, 66, 0, 17005, 0⟩ : SimInput).other_income_social
    ∧ 0 ≤ (⟨0, 3/1000, 65, 66, 0, 17005, 0⟩ : SimInput).other_income_tax
    ∧ 0 ≤ (⟨0, 3/1000, 65, 66, 0, 17005, 0⟩ : SimInput).market_return
    ∧ yearNetFlow ⟨0, 3/1000, 65, 66, 0, 17005, 0⟩ 0 < 0
    ∧ capitalAfter ⟨0, 3/1000, 65, 66, 0, 17005, 0⟩ 1
        < capitalAfter ⟨0, 3/1000, 65, 66, 0, 17005, 0⟩ 0 := by
  refine ⟨by norm_num, by norm_num, by norm_num, by norm_num, by norm_num, ?_, ?_⟩
  · norm_num [yearNetFlow, net_lump, net_pension, lump_tax, lump_sum_tax_fuenftel,
      pension_tax, pension_ss, lump_ss_year, lump_share, social_security_contribution,
      base_regular, base_ss, german_income_tax, SOCIAL_SECURITY_THRESHOLD,
      SOCIAL_SECURITY_RATE, min_def]
  · norm_num [capitalAfter, CAPITAL_GAINS_TAX_RATE, yearNetFlow, net_lump, net_pension,
      lump_tax, lump_sum_tax_fuenftel, pension_tax, pension_ss, lump_ss_year, lump_share,
      social_security_contribution, base_regular, base_ss, german_income_tax,
      SOCIAL_SECURITY_THRESHOLD, SOCIAL_SECURITY_RATE, min_def]

/-- Claim C10 as amended: if the market return is non-negative and the three
precomputed flow components are non-negative (`net_lump ≥ 0`,
`lump_ss_year ≥ 0`, `net_pension - lump_ss_year ≥ 0`), then every year's
net flow is non-negative and the unrounded running capital is non-negative
and non-decreasing; consequently every emitted record has
`capital_start ≤ capital_end`.  (The hypothesis is needed: near the upward
tax jump at 17005 the marginal tax can exceed the gross pension.) -/
theorem c10_capital_monotone :
    ∀ inp : SimInput, 0 ≤ inp.market_return →
      0 ≤ net_lump inp → 0 ≤ lump_ss_year inp →
      0 ≤ net_pension inp - lump_ss_year inp →
      (∀ i, 0 ≤ yearNetFlow inp i)
      ∧ (∀ i, 0 ≤ capitalAfter inp i)
      ∧ (∀ i, capitalAfter inp i ≤ capitalAfter inp (i + 1))
      ∧ (∀ (i : ℕ) (h : i < (simulate_retirement_investable inp).length),
          ((simulate_retirement_investable inp).get ⟨i, h⟩).capital_start
            ≤ ((simulate_retirement_investable inp).get ⟨i, h⟩).capital_end) := by
  intro inp hr h1 h2 h3
  have hnf : ∀ i, 0 ≤ yearNetFlow inp i := by
    intro i
    unfold yearNetFlow
    split_ifs <;> linarith
  have hcap : ∀ i, 0 ≤ capitalAfter inp i := by
    intro i
    induction i with
    | zero => exact le_refl 0
    | succ n ih =>
      simp only [capitalAfter]
      unfold CAPITAL_GAINS_TAX_RATE
      have hx := mul_nonneg (add_nonneg ih (hnf n)) hr
      have hf := hnf n
      linarith
  have hstep : ∀ i, capitalAfter inp i ≤ capitalAfter inp (i + 1) := by
    intro i
    conv_rhs => rw [capitalAfter]
    unfold CAPITAL_GAINS_TAX_RATE
    have hx := mul_nonneg (add_nonneg (hcap i) (hnf i)) hr
    have hf := hnf i
    linarith
  refine ⟨hnf, hcap, hstep, ?_⟩
  intro i h
  simp only [simulate_retirement_investable, List.get_eq_getElem, List.getElem_map,
    List.getElem_range]
  show round2 (capitalAfter inp i) ≤ round2 (capitalAfter inp (i + 1))
  exact round2_mono (hstep i)

/-- Witness for the amended C10 at a concrete input (the spec's example
scenario over two years). -/
theorem c10_capital_monotone_witness :
    0 ≤ (⟨0, 12000, 65, 67, 70000, 70000, 3/100⟩ : SimInput).market_return
    ∧ 0 ≤ net_lump ⟨0, 12000, 65, 67, 70000, 70000, 3/100⟩
    ∧ 0 ≤ lump_ss_year ⟨0, 12000, 65, 67, 70000, 70000, 3/100⟩
    ∧ 0 ≤ net_pension ⟨0, 12000, 65, 67, 70000, 70000, 3/100⟩
          - lump_ss_year ⟨0, 12000, 65, 67, 70000, 70000, 3/100⟩
    ∧ capitalAfter ⟨0, 12000, 65, 67, 70000, 70000, 3/100⟩ 1
        ≤ capitalAfter ⟨0, 12000, 65, 67, 70000, 70000, 3/100⟩ 2 := by
  have hr : 0 ≤ (⟨0, 12000, 65, 67, 70000, 70000, 3/100⟩ : SimInput).market_return := by
    norm_num
  have h1 : 0 ≤ net_lump ⟨0, 12000, 65, 67, 70000, 70000, 3/100⟩ := by
    norm_num [net_lump, lump_tax, lump_sum_tax_fuenftel, german_income_tax, base_regular]
  have h2 : 0 ≤ lump_ss_year ⟨0, 12000, 65, 67, 70000, 70000, 3/100⟩ := by
    norm_num [lump_ss_year, social_security_contribution, lump_share, base_ss,
      SOCIAL_SECURITY_THRESHOLD, SOCIAL_SECURITY_RATE, min_def]
  have h3 : 0 ≤ net_pension ⟨0, 12000, 65, 67, 70000, 70000, 3/100⟩
      - lump_ss_year ⟨0, 12000, 65, 67, 70000, 70000, 3/100⟩ := by
    norm_num [net_pension, pension_tax, pension_ss, lump_ss_year, lump_share,
      social_security_contribution, base_regular, base_ss, german_income_tax,
      SOCIAL_SECURITY_THRESHOLD, SOCIAL_SECURITY_RATE, min_def]
  exact ⟨hr, h1, h2, h3,
    (c10_capital_monotone ⟨0, 12000, 65, 67, 70000, 70000, 3/100⟩ hr h1 h2 h3).2.2.1 1⟩
